import Mathlib

/-!
Verification of the request-handling module of `mcp-jd-kit` (src/main.py),
a JSON-RPC-over-HTTP gateway exposing an MCP-style `tools/list` and
`tools/call` surface with a single bearer-token-authenticated `validate`
tool.

The embedding below translates the Python module into Lean:
JSON values are a nested inductive; the pydantic `JsonRpcRequest`
validation is `parseRequest`; the pure dispatcher `handle_rpc`, the token
extractor `get_token` and the `POST /mcp` endpoint `mcp` are translated
statement by statement.  Python code can raise exceptions that escape the
handler (only `ValidationError` is caught by the endpoint), so fallible
code is embedded in `Except String`: `.error e` means an uncaught Python
exception of kind `e` escaped to the transport layer (FastAPI then
answers HTTP 500 with no JSON-RPC response), `.ok v` means the value `v`
was returned normally.
-/

namespace McpJdKit

/-- A JSON value as produced by `request.json()`.  JSON numbers are
restricted to integers: every numeric literal relevant to this module
(ids, error codes) is integral, and no claim involves floats. -/
inductive Json where
  | null : Json
  | bool : Bool → Json
  | num  : Int → Json
  | str  : String → Json
  | arr  : List Json → Json
  | obj  : List (String × Json) → Json

/-- Model of `d.get(key)` on a Python dict decoded from JSON.  Objects decoded by
`json.loads` have unique keys (later duplicates overwrite earlier ones at
parse time), so first-match lookup on the association list is faithful. -/
def lookup : List (String × Json) → String → Option Json
  | [], _ => none
  | (k, v) :: rest, key => if k = key then some v else lookup rest key

/-- Python truthiness (`if x:`) of a JSON-decoded value: `None`, `False`,
`0`, `""`, `[]` and `\x7b\x7d` are falsy, everything else truthy. -/
def jsonTruthy : Json → Bool
  | .null => false
  | .bool b => b
  | .num n => n != 0
  | .str s => s != ""
  | .arr xs => !xs.isEmpty
  | .obj kvs => !kvs.isEmpty

/-- Python truthiness of an optional string (`None` and `""` falsy). -/
def optStrTruthy : Option String → Bool
  | none => false
  | some s => s != ""

/-- Does `pat` lead the character list `cs`?  (Used for
`str.startswith`.) -/
def leadMatches : List Char → List Char → Bool
  | [], _ => true
  | _ :: _, [] => false
  | a :: pat, b :: cs => a = b && leadMatches pat cs

/-- Python `s.startswith(pat)`. -/
def strLead (pat s : String) : Bool := leadMatches pat.toList s.toList

/-- Substring containment, `pat in s` for Python strings. -/
def containsChars (pat : List Char) : List Char → Bool
  | [] => false
  | c :: cs => leadMatches pat (c :: cs) || containsChars pat cs

/-- Characters after the first space. -/
def afterFirstSpaceAux : List Char → String
  | [] => ""
  | c :: cs => if c = ' ' then String.mk cs else afterFirstSpaceAux cs

/-- Python `s.split(" ", 1)[1]`: the substring after the first space of `s`.
`get_token` only evaluates this under `s.startswith("Bearer ")`, which
guarantees a space exists (at index 6), so the out-of-range `[1]` case
(Python `IndexError`) is unreachable; on spaceless input this total
model returns `""`. -/
def afterFirstSpace (s : String) : String := afterFirstSpaceAux s.toList

mutual
/-- Python `repr` of a JSON-decoded value, as interpolated for container
elements by `str()`.  Exact for `None`, booleans, integers, lists and
dict bracketed shape; string quoting is simplified to plain single
quotes (Python additionally switches quote style or escapes when the text
itself holds quotes — no claim depends on that). -/
def pyReprVal : Json → String
  | .null => "None"
  | .bool b => if b then "True" else "False"
  | .num n => toString n
  | .str s => "\x27" ++ s ++ "\x27"
  | .arr xs => "[" ++ pyReprList xs ++ "]"
  | .obj kvs => "\x7b" ++ pyReprPairs kvs ++ "\x7d"

/-- Comma-separated `repr` of list elements. -/
def pyReprList : List Json → String
  | [] => ""
  | [j] => pyReprVal j
  | j :: rest => pyReprVal j ++ ", " ++ pyReprList rest

/-- Comma-separated `repr` of dict entries. -/
def pyReprPairs : List (String × Json) → String
  | [] => ""
  | [(k, v)] => "\x27" ++ k ++ "\x27: " ++ pyReprVal v
  | (k, v) :: rest => "\x27" ++ k ++ "\x27: " ++ pyReprVal v ++ ", " ++ pyReprPairs rest
end

/-- Python `str(x)` as used by the f-string `f"Unknown tool: \x7bname\x7d"`,
where `x` is `params.get("name")`: `None` when the key is absent,
otherwise the JSON-decoded value.  Top-level strings print bare. -/
def pyStr : Option Json → String
  | none => "None"
  | some .null => "None"
  | some (.bool b) => if b then "True" else "False"
  | some (.num n) => toString n
  | some (.str s) => s
  | some (.arr xs) => "[" ++ pyReprList xs ++ "]"
  | some (.obj kvs) => "\x7b" ++ pyReprPairs kvs ++ "\x7d"

/-- The validated `id` field of `JsonRpcRequest`:
`id: Union[str, int, None] = None`.  A missing field and an explicit
`null` both yield Python `None`, collapsed to `RpcId.null`. -/
inductive RpcId where
  | null : RpcId
  | str  : String → RpcId
  | num  : Int → RpcId
deriving DecidableEq

/-- Serialisation of the echoed id back into the JSON response. -/
def RpcId.toJson : RpcId → Json
  | .null => .null
  | .str s => .str s
  | .num n => .num n

/-- The pydantic model `JsonRpcRequest` (src/main.py lines 17-21). -/
structure JsonRpcRequest where
  jsonrpc : String
  id : RpcId
  method : String
  params : Option (List (String × Json))

/-- Validation of the `id` field: accepts absent, `null`, strings and
integers (pydantic v2 rejects booleans for `Union[str, int, None]`). -/
def parseId : Option Json → Option RpcId
  | none => some .null
  | some .null => some .null
  | some (.str s) => some (.str s)
  | some (.num n) => some (.num n)
  | some _ => none

/-- Validation of the `params` field: `Dict[str, Any] | None = None`
accepts absent, `null` and objects, rejects everything else. -/
def parseParams : Option Json → Option (Option (List (String × Json)))
  | none => some none
  | some .null => some none
  | some (.obj kvs) => some (some kvs)
  | some _ => none

/-- Validation `JsonRpcRequest(**item)` for a dict `item` (string keys, as all
JSON-decoded objects have): `some` the validated model, or `none` for a
pydantic `ValidationError`.  `jsonrpc` and `method` are required strings;
extra keys are ignored (pydantic default). -/
def parseRequest (kvs : List (String × Json)) : Option JsonRpcRequest :=
  match lookup kvs "jsonrpc", lookup kvs "method" with
  | some (.str v), some (.str m) =>
    match parseId (lookup kvs "id"), parseParams (lookup kvs "params") with
    | some i, some p => some ⟨v, i, m, p⟩
    | _, _ => none
  | _, _ => none

/-- Helper `ok(_id, result)` (src/main.py lines 23-24). -/
def ok (idj : Json) (result : Json) : Json :=
  .obj [("jsonrpc", .str "2.0"), ("id", idj), ("result", result)]

/-- Helper `err(_id, code, message)` (src/main.py lines 26-27). -/
def err (idj : Json) (code : Int) (message : String) : Json :=
  .obj [("jsonrpc", .str "2.0"), ("id", idj),
        ("error", .obj [("code", .num code), ("message", .str message)])]

/-- The environment configuration read once at process start:
`AUTH_TOKEN = os.getenv("AUTH_TOKEN")`, `MY_NUMBER = os.getenv("MY_NUMBER")`
(`none` when the variable is unset). -/
structure Config where
  authToken : Option String
  myNumber : Option String

/-- The body of `get_token` after the header branch: `if params_or_args:`
then `if "token" in params_or_args: return params_or_args.get("token")`.
The call site passes `params.get("arguments", \x7b\x7d)`, which can be any
JSON value, so the Python polymorphic `in` is modelled on each shape: dict
key containment, string substring containment (then `.get` on a `str`
raises `AttributeError`), list membership (then `.get` on a `list` raises
`AttributeError`), and `TypeError` for numbers and `True` (not
containers; `False`, `0` are falsy and never reach the `in`). -/
def get_token_body (params_or_args : Json) : Except String (Option Json) :=
  if jsonTruthy params_or_args then
    match params_or_args with
    | .obj kvs =>
      match lookup kvs "token" with
      | some v => .ok (some v)
      | none => .ok none
    | .str s =>
      if containsChars "token".toList s.toList then .error "AttributeError"
      else .ok none
    | .arr xs =>
      if xs.any (fun j => match j with | .str s => s == "token" | _ => false)
      then .error "AttributeError"
      else .ok none
    | _ => .error "TypeError"
  else
    .ok none

/-- Extraction `get_token(authorization, params_or_args)` (src/main.py lines 30-39):
header first — `if authorization and authorization.startswith("Bearer "):
return authorization.split(" ", 1)[1]` — then the arguments body. -/
def get_token (authorization : Option String) (params_or_args : Json) :
    Except String (Option Json) :=
  if optStrTruthy authorization && strLead "Bearer " (authorization.getD "") then
    .ok (some (.str (afterFirstSpace (authorization.getD ""))))
  else
    get_token_body params_or_args

/-- The `initialize` capability announcement (src/main.py lines 48-54). -/
def handshakeResult : Json :=
  .obj [("serverInfo", .obj [("name", .str "mcp-jd-kit"), ("version", .str "0.1.0")]),
        ("protocolVersion", .str "2024-06-01"),
        ("capabilities", .obj [("tools", .obj [("listChanged", .bool false)])])]

/-- The `tools/list` catalogue (src/main.py lines 58-76). -/
def toolsListResult : Json :=
  .obj [("tools", .arr [
    .obj [("name", .str "validate"),
          ("description", .str "Return owner phone as a string. Token via Authorization header or arguments.token."),
          ("inputSchema", .obj [("type", .str "object"),
            ("properties", .obj [("token",
              .obj [("type", .str "string"), ("description", .str "Bearer token")])])])],
    .obj [("name", .str "ping"),
          ("description", .str "Liveness check."),
          ("inputSchema", .obj [("type", .str "object"), ("properties", .obj [])])]])]

/-- The dot-form `tools.list` catalogue (src/main.py lines 107-120). -/
def toolsDotListResult : Json :=
  .obj [("tools", .arr [
    .obj [("name", .str "validate"),
          ("description", .str "Return owner phone as string."),
          ("inputSchema", .obj [("type", .str "object"),
            ("properties", .obj [("token", .obj [("type", .str "string")])])])],
    .obj [("name", .str "ping"),
          ("description", .str "Liveness check."),
          ("inputSchema", .obj [("type", .str "object"), ("properties", .obj [])])]])]

/-- The `validate` failure payload for a falsy extracted token. -/
def missingTokenPayload : Json :=
  .obj [("error", .obj [("code", .num (-32001)), ("message", .str "Missing token")])]

/-- The `validate` failure payload when `AUTH_TOKEN` is unset. -/
def misconfiguredPayload : Json :=
  .obj [("error", .obj [("code", .num (-32003)),
                        ("message", .str "Server misconfigured: AUTH_TOKEN missing")])]

/-- The `validate` failure payload for a token mismatch. -/
def invalidTokenPayload : Json :=
  .obj [("error", .obj [("code", .num (-32002)), ("message", .str "Invalid token")])]

/-- The `validate` failure payload when `MY_NUMBER` is falsy. -/
def missingNumberPayload : Json :=
  .obj [("error", .obj [("code", .num (-32000)), ("message", .str "Server missing MY_NUMBER")])]

/-- The `validate` success payload carrying the configured number. -/
def contentPayload (text : String) : Json :=
  .obj [("content", .arr [.obj [("type", .str "text"), ("text", .str text)]])]

/-- The same request with its protocol tag replaced. -/
def withTag (rpc : JsonRpcRequest) (s : String) : JsonRpcRequest :=
  ⟨s, rpc.id, rpc.method, rpc.params⟩

/-- Test `not incoming_token`: the extracted token is Python-falsy (`None`
when absent, or a falsy value such as `""`). -/
def tokenFalsy : Option Json → Bool
  | none => true
  | some j => !jsonTruthy j

/-- Python `==` between the extracted token (an arbitrary JSON-decoded
value) and the configured secret string: only an equal string compares
equal (non-strings never equal a `str`). -/
def tokenEqStr : Option Json → String → Bool
  | some (.str s), secret => s == secret
  | _, _ => false

/-- Python `==` between `params.get("name")` and a tool-name literal. -/
def nameIs : Option Json → String → Bool
  | some (.str s), t => s == t
  | _, _ => false

/-- Dispatcher `handle_rpc(rpc, authorization)` (src/main.py lines 42-123), with the
process-wide configuration passed explicitly.  Python `==` between the
extracted token (an arbitrary JSON-decoded value) and the configured
secret string holds exactly when the token is that string.  The line-81 test
`isinstance(params, dict)` is always true (`rpc.params or \x7b\x7d` is a
validated dict), so `arguments` is `params.get("arguments", \x7b\x7d)`. -/
def handle_rpc (rpc : JsonRpcRequest) (authorization : Option String)
    (cfg : Config) : Except String Json :=
  let params := rpc.params.getD []
  if rpc.method = "initialize" then
    .ok (ok rpc.id.toJson handshakeResult)
  else if rpc.method = "tools/list" then
    .ok (ok rpc.id.toJson toolsListResult)
  else if rpc.method = "tools/call" then
    let name := lookup params "name"
    let arguments := (lookup params "arguments").getD (.obj [])
    if nameIs name "validate" then
      match get_token authorization arguments with
      | .error e => .error e
      | .ok incoming_token =>
        if tokenFalsy incoming_token then
          .ok (ok rpc.id.toJson missingTokenPayload)
        else
          match cfg.authToken with
          | none => .ok (ok rpc.id.toJson misconfiguredPayload)
          | some secret =>
            if !(tokenEqStr incoming_token secret) then
              .ok (ok rpc.id.toJson invalidTokenPayload)
            else if !(optStrTruthy cfg.myNumber) then
              .ok (ok rpc.id.toJson missingNumberPayload)
            else
              .ok (ok rpc.id.toJson (contentPayload (cfg.myNumber.getD "")))
    else if nameIs name "ping" then
      .ok (ok rpc.id.toJson (contentPayload "pong"))
    else
      .ok (err rpc.id.toJson (-32601) ("Unknown tool: " ++ pyStr name))
  else if rpc.method = "ping" then
    .ok (ok rpc.id.toJson (.obj [("pong", .bool true)]))
  else if rpc.method = "tools.list" then
    .ok (ok rpc.id.toJson toolsDotListResult)
  else
    .ok (err rpc.id.toJson (-32601) ("Method not found: " ++ rpc.method))

/-- One iteration of the batch loop (src/main.py lines 159-165):
`JsonRpcRequest(**item)` needs `item` to be a mapping — any other JSON
value raises `TypeError`, which the `except ValidationError` does NOT
catch; a dict that fails validation is answered with
`err(item.get("id", None), -32600, "Invalid Request")`. -/
def handleItem (item : Json) (authorization : Option String)
    (cfg : Config) : Except String Json :=
  match item with
  | .obj kvs =>
    match parseRequest kvs with
    | some rpc => handle_rpc rpc authorization cfg
    | none => .ok (err ((lookup kvs "id").getD .null) (-32600) "Invalid Request")
  | _ => .error "TypeError"

/-- The batch loop: sequential, order-preserving; the first uncaught
exception aborts the whole request. -/
def processBatch (items : List Json) (authorization : Option String)
    (cfg : Config) : Except String (List Json) :=
  match items with
  | [] => .ok []
  | item :: rest =>
    match handleItem item authorization cfg with
    | .error e => .error e
    | .ok r =>
      match processBatch rest authorization cfg with
      | .error e => .error e
      | .ok rs => .ok (r :: rs)

/-- An HTTP response: JSON body plus status code. -/
structure HttpResponse where
  body : Json
  status : Nat

/-- The `POST /mcp` endpoint (src/main.py lines 134-180).  `body = none`
models `request.json()` raising (malformed JSON), answered
`err(None, -32700, "Parse error")`.  A list is handled by the batch loop;
a dict is validated and dispatched, `ValidationError` being caught by the
outer handler as `err(None, -32600, "Invalid Request")`; any other JSON
value raises `TypeError` at `JsonRpcRequest(**body)`, which no handler
catches.  Every returned response carries `status_code=200`. -/
def mcp (body : Option Json) (authorization : Option String)
    (cfg : Config) : Except String HttpResponse :=
  match body with
  | none => .ok ⟨err .null (-32700) "Parse error", 200⟩
  | some (.arr items) =>
    match processBatch items authorization cfg with
    | .error e => .error e
    | .ok rs => .ok ⟨.arr rs, 200⟩
  | some (.obj kvs) =>
    match parseRequest kvs with
    | some rpc =>
      match handle_rpc rpc authorization cfg with
      | .error e => .error e
      | .ok r => .ok ⟨r, 200⟩
    | none => .ok ⟨err .null (-32600) "Invalid Request", 200⟩
  | some _ => .error "TypeError"

/-- The `id` field of a response object. -/
def idOf : Json → Option Json
  | .obj kvs => lookup kvs "id"
  | _ => none

/-- The `jsonrpc` field of a response object. -/
def tagOf : Json → Option Json
  | .obj kvs => lookup kvs "jsonrpc"
  | _ => none

/-- A response object carries exactly one of `result` / `error`. -/
def resultErrorXor : Json → Bool
  | .obj kvs => ((lookup kvs "result").isSome != (lookup kvs "error").isSome)
  | _ => false

/-- The identifier the endpoint must echo for a raw batch element:
`item.get("id", None)` for a dict, serialised with `None` as JSON null. -/
def rawIdOf : Json → Json
  | .obj kvs => (lookup kvs "id").getD .null
  | _ => .null


/-- The `tools` array of a catalogue result payload (empty if absent). -/
def toolsOf : Json → List Json
  | .obj kvs =>
    match lookup kvs "tools" with
    | some (.arr ts) => ts
    | _ => []
  | _ => []

/-- The `name` string of a tool descriptor (empty if absent). -/
def toolNameText : Json → String
  | .obj kvs =>
    match lookup kvs "name" with
    | some (.str s) => s
    | _ => ""
  | _ => ""

/-- The `description` string of a tool descriptor (empty if absent). -/
def toolDescrText : Json → String
  | .obj kvs =>
    match lookup kvs "description" with
    | some (.str s) => s
    | _ => ""
  | _ => ""

/-- The description of the first catalogue entry inside a normally
returned response (empty on any other shape). -/
def firstToolDescrText : Except String Json → String
  | .ok (.obj kvs) =>
    match lookup kvs "result" with
    | some r =>
      match toolsOf r with
      | t :: _ => toolDescrText t
      | [] => ""
    | none => ""
  | _ => ""

/-- The description of the second catalogue entry inside a normally
returned response (empty on any other shape). -/
def optToolDescrText : Option Json → String
  | some t => toolDescrText t
  | none => ""

end McpJdKit
namespace McpJdKit

theorem idOf_ok (i p : Json) : idOf (ok i p) = some i := rfl

theorem idOf_err (i : Json) (c : Int) (m : String) : idOf (err i c m) = some i := rfl

theorem tagOf_ok (i p : Json) : tagOf (ok i p) = some (.str "2.0") := rfl

theorem tagOf_err (i : Json) (c : Int) (m : String) : tagOf (err i c m) = some (.str "2.0") := rfl

theorem xor_ok (i p : Json) : resultErrorXor (ok i p) = true := rfl

theorem xor_err (i : Json) (c : Int) (m : String) : resultErrorXor (err i c m) = true := rfl

/-- Every normally returned dispatcher response is an `ok`/`err` envelope
for the id of the request: it satisfies the result/error exclusivity, and
its `id` and `jsonrpc` fields are the echoed id and the constant tag. -/
theorem handle_rpc_ok_shape (rpc : JsonRpcRequest) (auth : Option String)
    (cfg : Config) (r : Json) (h : handle_rpc rpc auth cfg = .ok r) :
    resultErrorXor r = true ∧ idOf r = some rpc.id.toJson ∧
      tagOf r = some (.str "2.0") := by
  simp only [handle_rpc] at h
  repeat' split at h
  all_goals first
    | exact Except.noConfusion h
    | (injection h with h; subst h; exact ⟨rfl, rfl, rfl⟩)

/-- A validated id round-trips to the raw `id` field (JSON null when the
field was absent or null). -/
theorem parseId_toJson (o : Option Json) (i : RpcId) (h : parseId o = some i) :
    RpcId.toJson i = o.getD .null := by
  match o with
  | none => injection h with h; subst h; rfl
  | some .null => injection h with h; subst h; rfl
  | some (.str s) => injection h with h; subst h; rfl
  | some (.num n) => injection h with h; subst h; rfl
  | some (.bool b) => exact Option.noConfusion h
  | some (.arr xs) => exact Option.noConfusion h
  | some (.obj kvs) => exact Option.noConfusion h

/-- A request validated from a raw object carries the raw id of that object. -/
theorem parseRequest_id (kvs : List (String × Json)) (rpc : JsonRpcRequest)
    (h : parseRequest kvs = some rpc) :
    rpc.id.toJson = (lookup kvs "id").getD .null := by
  unfold parseRequest at h
  repeat' split at h
  all_goals try exact Option.noConfusion h
  case _ i p hi hp =>
    injection h with h
    subst h
    exact parseId_toJson _ _ hi

/-- Every response produced for a batch element (dispatched or
shape-rejected) is a well-formed envelope echoing the raw id of the element. -/
theorem handleItem_shape (item : Json) (auth : Option String) (cfg : Config)
    (r : Json) (h : handleItem item auth cfg = .ok r) :
    resultErrorXor r = true ∧ idOf r = some (rawIdOf item) ∧
      tagOf r = some (.str "2.0") := by
  match item with
  | .obj kvs =>
    simp only [handleItem] at h
    split at h
    case _ rpc hp =>
      have hs := handle_rpc_ok_shape rpc auth cfg r h
      have hid := parseRequest_id kvs rpc hp
      exact ⟨hs.1, by rw [hs.2.1, hid]; rfl, hs.2.2⟩
    case _ =>
      injection h with h; subst h
      exact ⟨rfl, rfl, rfl⟩
  | .null => exact Except.noConfusion h
  | .bool b => exact Except.noConfusion h
  | .num n => exact Except.noConfusion h
  | .str s => exact Except.noConfusion h
  | .arr xs => exact Except.noConfusion h

/-- A completed batch has one response per input element. -/
theorem processBatch_length (items : List Json) (auth : Option String)
    (cfg : Config) (rs : List Json) (h : processBatch items auth cfg = .ok rs) :
    rs.length = items.length := by
  induction items generalizing rs with
  | nil => simp only [processBatch] at h; injection h with h; subst h; rfl
  | cons item rest ih =>
    simp only [processBatch] at h
    split at h
    · exact Except.noConfusion h
    · split at h
      · exact Except.noConfusion h
      · case _ r _ rs' hrest =>
        injection h with h; subst h
        simp [ih rs' hrest]

/-- A completed batch handled each element in place: position `i` of the
output is the response `handleItem` gives for position `i` of the input. -/
theorem processBatch_get (items : List Json) (auth : Option String)
    (cfg : Config) (rs : List Json) (h : processBatch items auth cfg = .ok rs)
    (i : Nat) (item : Json) (hi : items[i]? = some item) :
    ∃ r, rs[i]? = some r ∧ handleItem item auth cfg = .ok r := by
  induction items generalizing rs i with
  | nil => simp at hi
  | cons hd rest ih =>
    simp only [processBatch] at h
    split at h
    · exact Except.noConfusion h
    · case _ r hr =>
      split at h
      · exact Except.noConfusion h
      · case _ rs' hrest =>
        injection h with h; subst h
        match i with
        | 0 =>
          simp only [List.getElem?_cons_zero, Option.some.injEq] at hi
          subst hi
          exact ⟨r, by simp, hr⟩
        | i + 1 =>
          simp only [List.getElem?_cons_succ] at hi ⊢
          exact ih rs' hrest i hi

end McpJdKit

namespace McpJdKit

/-- Claim C1 (counterexample): the claim asserts that EVERY `tools/call`
request with `params.name == "validate"` gets a JSON-RPC success back.
It fails when `params.arguments` is a truthy non-mapping: with
`arguments = 5` and no Authorization header, `get_token` evaluates
`"token" in 5`, which raises an uncaught `TypeError`, so the handler
produces no JSON-RPC response at all (the transport answers HTTP 500). -/
theorem validate_nonmapping_arguments_raise :
    handle_rpc ⟨"2.0", .num 1, "tools/call",
        some [("name", Json.str "validate"), ("arguments", Json.num 5)]⟩
      none ⟨some "SECRET", some "+15555550123"⟩ = .error "TypeError" := rfl

/-- Claim C1 (amended): whenever token extraction completes without an
exception (in particular whenever `arguments` is a mapping or absent),
a `tools/call` with `params.name == "validate"` returns a JSON-RPC
success whose payload follows the short-circuiting sequence: falsy
(absent-or-empty) token → Missing token (-32001); no configured
comparison token → misconfigured (-32003); token not string-equal to the
secret → Invalid token (-32002); falsy configured output value → missing
MY_NUMBER (-32000); otherwise the text content carrying the output. -/
theorem validate_decision_sequence (rpc : JsonRpcRequest)
    (auth : Option String) (cfg : Config) (tok : Option Json)
    (hm : rpc.method = "tools/call")
    (hname : lookup (rpc.params.getD []) "name" = some (.str "validate"))
    (htok : get_token auth
      ((lookup (rpc.params.getD []) "arguments").getD (.obj [])) = .ok tok) :
    (tokenFalsy tok = true →
      handle_rpc rpc auth cfg = .ok (ok rpc.id.toJson missingTokenPayload))
    ∧ (tokenFalsy tok = false → cfg.authToken = none →
      handle_rpc rpc auth cfg = .ok (ok rpc.id.toJson misconfiguredPayload))
    ∧ (∀ s, tokenFalsy tok = false → cfg.authToken = some s →
      tokenEqStr tok s = false →
      handle_rpc rpc auth cfg = .ok (ok rpc.id.toJson invalidTokenPayload))
    ∧ (∀ s, tokenFalsy tok = false → cfg.authToken = some s →
      tokenEqStr tok s = true → (cfg.myNumber = none ∨ cfg.myNumber = some "") →
      handle_rpc rpc auth cfg = .ok (ok rpc.id.toJson missingNumberPayload))
    ∧ (∀ s m, tokenFalsy tok = false → cfg.authToken = some s →
      tokenEqStr tok s = true → cfg.myNumber = some m → m ≠ "" →
      handle_rpc rpc auth cfg = .ok (ok rpc.id.toJson (contentPayload m))) := by
  obtain ⟨v, i, m0, p⟩ := rpc
  simp only [JsonRpcRequest.method] at hm
  subst hm
  simp only [JsonRpcRequest.params] at hname htok
  refine ⟨?_, ?_, ?_, ?_, ?_⟩
  · intro hfal
    simp [handle_rpc, hname, nameIs, htok, hfal]
  · intro hfal hat
    simp [handle_rpc, hname, nameIs, htok, hfal, hat]
  · intro s hfal hat heq
    simp [handle_rpc, hname, nameIs, htok, hfal, hat, heq]
  · intro s hfal hat heq hnum
    rcases hnum with hnum | hnum <;>
      simp [handle_rpc, hname, nameIs, htok, hfal, hat, heq, hnum, optStrTruthy]
  · intro s m hfal hat heq hnum hne
    simp [handle_rpc, hname, nameIs, htok, hfal, hat, heq, hnum, optStrTruthy, hne]

/-- Claim C1 (witness): the amended sequence at a concrete happy-path
input: matching bearer header and configured number. -/
theorem validate_decision_sequence_witness :
    handle_rpc ⟨"2.0", .num 1, "tools/call", some [("name", Json.str "validate")]⟩
      (some "Bearer SECRET") ⟨some "SECRET", some "+15555550123"⟩
    = .ok (ok (.num 1) (contentPayload "+15555550123")) :=
  (validate_decision_sequence
      ⟨"2.0", .num 1, "tools/call", some [("name", Json.str "validate")]⟩
      (some "Bearer SECRET") ⟨some "SECRET", some "+15555550123"⟩
      (some (.str "SECRET")) rfl rfl rfl).2.2.2.2
    "SECRET" "+15555550123" rfl rfl rfl rfl (by decide)

/-- Claim C2: first-match-wins token extraction: a `Bearer `-led header
yields the substring after the first space whatever the arguments hold;
otherwise a `token` field of the arguments mapping is used; otherwise the
token is absent. -/
theorem token_extraction_order :
    (∀ (a : String) (args : Json), strLead "Bearer " a = true →
      get_token (some a) args = .ok (some (.str (afterFirstSpace a))))
    ∧ (∀ (auth : Option String) (kvs : List (String × Json)) (v : Json),
      (∀ a, auth = some a → strLead "Bearer " a = false) →
      lookup kvs "token" = some v →
      get_token auth (.obj kvs) = .ok (some v))
    ∧ (∀ (auth : Option String) (kvs : List (String × Json)),
      (∀ a, auth = some a → strLead "Bearer " a = false) →
      lookup kvs "token" = none →
      get_token auth (.obj kvs) = .ok none) := by
  refine ⟨?_, ?_, ?_⟩
  · intro a args h
    have hne : a ≠ "" := by
      intro he
      subst he
      exact absurd h (by decide)
    simp [get_token, optStrTruthy, hne, h]
  · intro auth kvs v hh hl
    have hbody : get_token_body (.obj kvs) = .ok (some v) := by
      cases kvs with
      | nil => simp [lookup] at hl
      | cons kv rest => simp [get_token_body, jsonTruthy, hl]
    cases auth with
    | none => simpa [get_token, optStrTruthy] using hbody
    | some a => simp [get_token, hh a rfl, hbody]
  · intro auth kvs hh hl
    have hbody : get_token_body (.obj kvs) = .ok none := by
      cases kvs with
      | nil => simp [get_token_body, jsonTruthy]
      | cons kv rest => simp [get_token_body, jsonTruthy, hl]
    cases auth with
    | none => simpa [get_token, optStrTruthy] using hbody
    | some a => simp [get_token, hh a rfl, hbody]

/-- Claim C2 (witness): the three extraction cases at concrete inputs —
header wins over an arguments token, arguments token is used without a
bearer header, and no source at all yields an absent token. -/
theorem token_extraction_order_witness :
    get_token (some "Bearer H") (.obj [("token", .str "B")]) = .ok (some (.str "H"))
    ∧ get_token none (.obj [("token", .str "B")]) = .ok (some (.str "B"))
    ∧ get_token (some "Token x") (.obj []) = .ok none := by
  refine ⟨?_, ?_, ?_⟩
  · exact token_extraction_order.1 "Bearer H" (.obj [("token", .str "B")]) (by decide)
  · exact token_extraction_order.2.1 none [("token", .str "B")] (.str "B")
      (fun a ha => Option.noConfusion ha) rfl
  · exact token_extraction_order.2.2 (some "Token x") []
      (fun a ha => by cases ha; decide) rfl

end McpJdKit

namespace McpJdKit

/-- Claim C3 (counterexample): the claim asserts every JSON-array body of
length N yields an N-element response array regardless of element
validity.  A non-object element refutes it: for the body `[5]` the batch
loop evaluates `JsonRpcRequest(**5)`, which raises `TypeError` — a kind
the `except ValidationError` clauses do not catch — so no response array
is produced at all (the transport answers HTTP 500). -/
theorem batch_nonobject_element_aborts :
    mcp (some (.arr [Json.num 5])) none ⟨none, none⟩ = .error "TypeError" := rfl

/-- Claim C3 (amended): whenever batch processing completes without an
uncaught exception — which it does unless an element is not a JSON
object, or a validate call carries truthy non-mapping arguments — the
response is a JSON array of exactly N JSON-RPC response objects in input
order, the response at each position carrying the raw identifier of the
element at that position (null when absent); a shape-invalid object
element yields an error response at its position without stopping the
remaining elements. -/
theorem batch_preserves_length_order_ids (items : List Json)
    (auth : Option String) (cfg : Config) (resp : HttpResponse)
    (h : mcp (some (.arr items)) auth cfg = .ok resp) :
    ∃ rs, resp.body = .arr rs ∧ rs.length = items.length ∧
      ∀ (i : Nat) (item : Json), items[i]? = some item →
        ∃ r, rs[i]? = some r ∧ resultErrorXor r = true ∧
          idOf r = some (rawIdOf item) := by
  simp only [mcp] at h
  split at h
  · exact Except.noConfusion h
  · case _ rs hpb =>
    injection h with h
    subst h
    refine ⟨rs, rfl, processBatch_length items auth cfg rs hpb, ?_⟩
    intro i item hi
    obtain ⟨r, hr, hhi⟩ := processBatch_get items auth cfg rs hpb i item hi
    have hs := handleItem_shape item auth cfg r hhi
    exact ⟨r, hr, hs.1, hs.2.1⟩

/-- Claim C3 (witness): the amended statement at a concrete two-element
batch (one shape-invalid element followed by a valid bare ping). -/
theorem batch_preserves_length_order_ids_witness :
    ∃ rs, (HttpResponse.mk (.arr [err (.num 7) (-32600) "Invalid Request",
        ok (.str "a") (.obj [("pong", .bool true)])]) 200).body = .arr rs
      ∧ rs.length = [Json.obj [("id", Json.num 7)],
          Json.obj [("jsonrpc", Json.str "2.0"), ("id", Json.str "a"),
            ("method", Json.str "ping")]].length
      ∧ ∀ (i : Nat) (item : Json), [Json.obj [("id", Json.num 7)],
          Json.obj [("jsonrpc", Json.str "2.0"), ("id", Json.str "a"),
            ("method", Json.str "ping")]][i]? = some item →
        ∃ r, rs[i]? = some r ∧ resultErrorXor r = true ∧
          idOf r = some (rawIdOf item) :=
  batch_preserves_length_order_ids
    [Json.obj [("id", Json.num 7)],
     Json.obj [("jsonrpc", Json.str "2.0"), ("id", Json.str "a"),
       ("method", Json.str "ping")]]
    none ⟨none, none⟩
    ⟨.arr [err (.num 7) (-32600) "Invalid Request",
        ok (.str "a") (.obj [("pong", .bool true)])], 200⟩ rfl

/-- Claim C4: a shape-validation failure is answered with code -32600
and message "Invalid Request"; inside a completed batch the error echoes
whatever raw `id` field the offending object element carries (null when
absent), while a single-object body failing validation is answered with
a null identifier. -/
theorem invalid_request_responses :
    (∀ (items : List Json) (auth : Option String) (cfg : Config)
      (rs : List Json) (i : Nat) (kvs : List (String × Json)),
      processBatch items auth cfg = .ok rs →
      items[i]? = some (.obj kvs) →
      parseRequest kvs = none →
      rs[i]? = some (err ((lookup kvs "id").getD .null) (-32600) "Invalid Request"))
    ∧ (∀ (kvs : List (String × Json)) (auth : Option String) (cfg : Config),
      parseRequest kvs = none →
      mcp (some (.obj kvs)) auth cfg
        = .ok ⟨err .null (-32600) "Invalid Request", 200⟩) := by
  constructor
  · intro items auth cfg rs i kvs hpb hi hpr
    obtain ⟨r, hr, hhi⟩ := processBatch_get items auth cfg rs hpb i _ hi
    simp only [handleItem, hpr] at hhi
    injection hhi with hhi
    subst hhi
    exact hr
  · intro kvs auth cfg hpr
    simp [mcp, hpr]

/-- Claim C4 (witness): a one-element batch whose object element lacks
the required fields gets -32600 echoing its raw id 7; a single-object
body lacking them gets -32600 with a null id. -/
theorem invalid_request_responses_witness :
    ([err (.num 7) (-32600) "Invalid Request"] : List Json)[0]?
      = some (err ((lookup [("id", Json.num 7)] "id").getD .null) (-32600)
          "Invalid Request")
    ∧ mcp (some (.obj [("id", Json.num 9)])) none ⟨none, none⟩
      = .ok ⟨err .null (-32600) "Invalid Request", 200⟩ :=
  ⟨invalid_request_responses.1 [Json.obj [("id", Json.num 7)]] none ⟨none, none⟩
      [err (.num 7) (-32600) "Invalid Request"] 0 [("id", Json.num 7)]
      rfl (by simp) rfl,
   invalid_request_responses.2 [("id", Json.num 9)] none ⟨none, none⟩ rfl⟩

end McpJdKit

namespace McpJdKit

/-- Claim C5 (counterexample): the claim asserts `tools.list` returns a
result identical to `tools/list`, same descriptions included.  It is
false: for the same request id the two responses differ — the dot-form
catalogue describes `validate` as "Return owner phone as string."
while `tools/list` says "Return owner phone as a string. Token via
Authorization header or arguments.token.", and the dot-form omits the
description of the token property. -/
theorem dot_list_differs_from_slash_list :
    handle_rpc ⟨"2.0", .num 1, "tools.list", none⟩ none ⟨none, none⟩
    ≠ handle_rpc ⟨"2.0", .num 1, "tools/list", none⟩ none ⟨none, none⟩ := by
  intro h
  exact absurd (congrArg firstToolDescrText h) (by decide)

/-- Claim C5 (amended): `tools.list` is a backward-compatible alias of
`tools/list` up to catalogue wording: both return a fixed two-entry
catalogue with the same tool names (`validate`, `ping`) in the same
order and an identical `ping` entry, but the `validate` entries differ
(shorter dot-form description, no token-property description). -/
theorem dot_list_alias (rpc : JsonRpcRequest) (auth : Option String)
    (cfg : Config) :
    (rpc.method = "tools.list" →
      handle_rpc rpc auth cfg = .ok (ok rpc.id.toJson toolsDotListResult))
    ∧ (rpc.method = "tools/list" →
      handle_rpc rpc auth cfg = .ok (ok rpc.id.toJson toolsListResult))
    ∧ (toolsOf toolsDotListResult).map toolNameText
        = (toolsOf toolsListResult).map toolNameText
    ∧ (toolsOf toolsDotListResult).map toolNameText = ["validate", "ping"]
    ∧ (toolsOf toolsDotListResult)[1]? = (toolsOf toolsListResult)[1]?
    ∧ (toolsOf toolsDotListResult)[0]? ≠ (toolsOf toolsListResult)[0]? := by
  obtain ⟨v, i, m0, p⟩ := rpc
  refine ⟨?_, ?_, by decide, by decide, rfl, ?_⟩
  · intro hm
    simp only [JsonRpcRequest.method] at hm
    subst hm
    simp [handle_rpc]
  · intro hm
    simp only [JsonRpcRequest.method] at hm
    subst hm
    simp [handle_rpc]
  · intro h
    exact absurd (congrArg optToolDescrText h) (by decide)

/-- Claim C5 (witness): the alias behavior at a concrete request id. -/
theorem dot_list_alias_witness :
    handle_rpc ⟨"2.0", .num 1, "tools.list", none⟩ none ⟨none, none⟩
      = .ok (ok (.num 1) toolsDotListResult)
    ∧ handle_rpc ⟨"2.0", .num 1, "tools/list", none⟩ none ⟨none, none⟩
      = .ok (ok (.num 1) toolsListResult) :=
  ⟨(dot_list_alias ⟨"2.0", .num 1, "tools.list", none⟩ none ⟨none, none⟩).1 rfl,
   (dot_list_alias ⟨"2.0", .num 1, "tools/list", none⟩ none ⟨none, none⟩).2.1 rfl⟩

/-- Claim C6: a well-formed request with an unrecognized method gets a
JSON-RPC error -32601 whose message holds the method name, and a
`tools/call` whose string tool name is neither "validate" nor "ping"
gets a JSON-RPC error -32601 whose message holds the tool name. -/
theorem unknown_method_and_tool :
    (∀ (rpc : JsonRpcRequest) (auth : Option String) (cfg : Config),
      rpc.method ≠ "initialize" → rpc.method ≠ "tools/list" →
      rpc.method ≠ "tools/call" → rpc.method ≠ "ping" →
      rpc.method ≠ "tools.list" →
      ∃ msg, handle_rpc rpc auth cfg = .ok (err rpc.id.toJson (-32601) msg)
        ∧ ∃ pre post, msg = pre ++ rpc.method ++ post)
    ∧ (∀ (rpc : JsonRpcRequest) (auth : Option String) (cfg : Config)
        (n : String),
      rpc.method = "tools/call" →
      lookup (rpc.params.getD []) "name" = some (.str n) →
      n ≠ "validate" → n ≠ "ping" →
      ∃ msg, handle_rpc rpc auth cfg = .ok (err rpc.id.toJson (-32601) msg)
        ∧ ∃ pre post, msg = pre ++ n ++ post) := by
  constructor
  · intro rpc auth cfg h1 h2 h3 h4 h5
    refine ⟨"Method not found: " ++ rpc.method, ?_, "Method not found: ", "", by simp⟩
    simp [handle_rpc, h1, h2, h3, h4, h5]
  · intro rpc auth cfg n hm hname hn1 hn2
    obtain ⟨v, i, m0, p⟩ := rpc
    simp only [JsonRpcRequest.method] at hm
    subst hm
    simp only [JsonRpcRequest.params] at hname
    refine ⟨"Unknown tool: " ++ n, ?_, "Unknown tool: ", "", by simp⟩
    simp [handle_rpc, hname, nameIs, pyStr, hn1, hn2]

/-- Claim C6 (witness): method "frobnicate" and tool "frob" at concrete
requests. -/
theorem unknown_method_and_tool_witness :
    (∃ msg, handle_rpc ⟨"2.0", .null, "frobnicate", none⟩ none ⟨none, none⟩
      = .ok (err (RpcId.toJson .null) (-32601) msg)
      ∧ ∃ pre post, msg = pre ++ "frobnicate" ++ post)
    ∧ (∃ msg, handle_rpc ⟨"2.0", .null, "tools/call",
          some [("name", Json.str "frob")]⟩ none ⟨none, none⟩
      = .ok (err (RpcId.toJson .null) (-32601) msg)
      ∧ ∃ pre post, msg = pre ++ "frob" ++ post) :=
  ⟨unknown_method_and_tool.1 ⟨"2.0", .null, "frobnicate", none⟩ none ⟨none, none⟩
      (by decide) (by decide) (by decide) (by decide) (by decide),
   unknown_method_and_tool.2 ⟨"2.0", .null, "tools/call",
      some [("name", Json.str "frob")]⟩ none ⟨none, none⟩ "frob"
      rfl rfl (by decide) (by decide)⟩

/-- Claim C7: a body that fails to decode as JSON is answered by the
single response `err(null, -32700, "Parse error")` with HTTP status 200,
and every response the endpoint returns carries HTTP status 200. -/
theorem parse_error_response :
    (∀ (auth : Option String) (cfg : Config),
      mcp none auth cfg = .ok ⟨err .null (-32700) "Parse error", 200⟩)
    ∧ (∀ (body : Option Json) (auth : Option String) (cfg : Config)
        (r : HttpResponse),
      mcp body auth cfg = .ok r → r.status = 200) := by
  constructor
  · intro auth cfg
    rfl
  · intro body auth cfg r h
    cases body with
    | none =>
      simp only [mcp] at h
      injection h with h
      subst h
      rfl
    | some b =>
      cases b with
      | null => simp only [mcp] at h; exact Except.noConfusion h
      | bool x => simp only [mcp] at h; exact Except.noConfusion h
      | num x => simp only [mcp] at h; exact Except.noConfusion h
      | str x => simp only [mcp] at h; exact Except.noConfusion h
      | arr items =>
        simp only [mcp] at h
        split at h
        · exact Except.noConfusion h
        · injection h with h; subst h; rfl
      | obj kvs =>
        simp only [mcp] at h
        split at h
        · split at h
          · exact Except.noConfusion h
          · injection h with h; subst h; rfl
        · injection h with h; subst h; rfl

/-- Claim C7 (witness): the parse-failure response and its status at
concrete inputs. -/
theorem parse_error_response_witness :
    mcp none none ⟨none, none⟩ = .ok ⟨err .null (-32700) "Parse error", 200⟩
    ∧ (⟨err .null (-32700) "Parse error", 200⟩ : HttpResponse).status = 200 :=
  ⟨parse_error_response.1 none ⟨none, none⟩,
   parse_error_response.2 none none ⟨none, none⟩
     ⟨err .null (-32700) "Parse error", 200⟩
     (parse_error_response.1 none ⟨none, none⟩)⟩

end McpJdKit

namespace McpJdKit

/-- With no matching bearer header, a `token` entry of the arguments
mapping is returned by `get_token`. -/
theorem get_token_obj_lookup (auth : Option String)
    (kvs : List (String × Json)) (v : Json)
    (hh : ∀ a, auth = some a → strLead "Bearer " a = false)
    (hl : lookup kvs "token" = some v) :
    get_token auth (.obj kvs) = .ok (some v) := by
  have hbody : get_token_body (.obj kvs) = .ok (some v) := by
    cases kvs with
    | nil => simp [lookup] at hl
    | cons kv rest => simp [get_token_body, jsonTruthy, hl]
  cases auth with
  | none => simpa [get_token, optStrTruthy] using hbody
  | some a => simp [get_token, hh a rfl, hbody]

/-- Claim C8: every response object the dispatcher produces has exactly
one of `result`/`error`, and carries the id of its originating request — the
raw element id inside a batch — or null when the failure precedes
reading an id (parse failure, single-object shape failure). -/
theorem response_envelope_invariant :
    (∀ (rpc : JsonRpcRequest) (auth : Option String) (cfg : Config) (r : Json),
      handle_rpc rpc auth cfg = .ok r →
      resultErrorXor r = true ∧ idOf r = some rpc.id.toJson)
    ∧ (∀ (item : Json) (auth : Option String) (cfg : Config) (r : Json),
      handleItem item auth cfg = .ok r →
      resultErrorXor r = true ∧ idOf r = some (rawIdOf item))
    ∧ (∀ (auth : Option String) (cfg : Config) (r : HttpResponse),
      mcp none auth cfg = .ok r →
      resultErrorXor r.body = true ∧ idOf r.body = some .null)
    ∧ (∀ (kvs : List (String × Json)) (auth : Option String) (cfg : Config)
        (r : HttpResponse),
      parseRequest kvs = none →
      mcp (some (.obj kvs)) auth cfg = .ok r →
      resultErrorXor r.body = true ∧ idOf r.body = some .null) := by
  refine ⟨?_, ?_, ?_, ?_⟩
  · intro rpc auth cfg r h
    have hs := handle_rpc_ok_shape rpc auth cfg r h
    exact ⟨hs.1, hs.2.1⟩
  · intro item auth cfg r h
    have hs := handleItem_shape item auth cfg r h
    exact ⟨hs.1, hs.2.1⟩
  · intro auth cfg r h
    simp only [mcp] at h
    injection h with h
    subst h
    exact ⟨rfl, rfl⟩
  · intro kvs auth cfg r hpr h
    simp only [mcp, hpr] at h
    injection h with h
    subst h
    exact ⟨rfl, rfl⟩

/-- Claim C8 (witness): the invariant at a concrete dispatched bare ping
and at a concrete shape-invalid single object. -/
theorem response_envelope_invariant_witness :
    (resultErrorXor (ok (.num 1) (.obj [("pong", .bool true)])) = true
      ∧ idOf (ok (.num 1) (.obj [("pong", .bool true)]))
          = some (RpcId.toJson (.num 1)))
    ∧ (resultErrorXor (HttpResponse.mk (err .null (-32600) "Invalid Request") 200).body = true
      ∧ idOf (HttpResponse.mk (err .null (-32600) "Invalid Request") 200).body
          = some .null) :=
  ⟨response_envelope_invariant.1 ⟨"2.0", .num 1, "ping", none⟩ none ⟨none, none⟩
      (ok (.num 1) (.obj [("pong", .bool true)])) rfl,
   response_envelope_invariant.2.2.2 [("id", Json.num 9)] none ⟨none, none⟩
      ⟨err .null (-32600) "Invalid Request", 200⟩ rfl rfl⟩

/-- Claim C9: an empty-string token is classified as absent: a header of
exactly "Bearer " — or, with no bearer header, an arguments `token`
equal to "" — yields the Missing-token payload (-32001) for every
configuration, so the comparison against the configured secret is never
reached. -/
theorem empty_token_is_missing :
    (∀ (rpc : JsonRpcRequest) (cfg : Config),
      rpc.method = "tools/call" →
      lookup (rpc.params.getD []) "name" = some (.str "validate") →
      handle_rpc rpc (some "Bearer ") cfg
        = .ok (ok rpc.id.toJson missingTokenPayload))
    ∧ (∀ (rpc : JsonRpcRequest) (auth : Option String) (cfg : Config)
        (kvs : List (String × Json)),
      rpc.method = "tools/call" →
      lookup (rpc.params.getD []) "name" = some (.str "validate") →
      (∀ a, auth = some a → strLead "Bearer " a = false) →
      lookup (rpc.params.getD []) "arguments" = some (.obj kvs) →
      lookup kvs "token" = some (.str "") →
      handle_rpc rpc auth cfg = .ok (ok rpc.id.toJson missingTokenPayload)) := by
  constructor
  · intro rpc cfg hm hname
    obtain ⟨v, i, m0, p⟩ := rpc
    simp only [JsonRpcRequest.method] at hm
    subst hm
    simp only [JsonRpcRequest.params] at hname
    have hgt : get_token (some "Bearer ")
        ((lookup (p.getD []) "arguments").getD (.obj [])) = .ok (some (.str "")) := rfl
    simp [handle_rpc, hname, nameIs, hgt, tokenFalsy, jsonTruthy]
  · intro rpc auth cfg kvs hm hname hh hargs htok
    obtain ⟨v, i, m0, p⟩ := rpc
    simp only [JsonRpcRequest.method] at hm
    subst hm
    simp only [JsonRpcRequest.params] at hname hargs
    have hgt : get_token auth
        ((lookup (p.getD []) "arguments").getD (.obj [])) = .ok (some (.str "")) := by
      rw [hargs]
      exact get_token_obj_lookup auth kvs (.str "") hh htok
    simp [handle_rpc, hname, nameIs, hgt, tokenFalsy, jsonTruthy]

/-- Claim C9 (witness): both empty-token shapes at concrete requests
with a fully configured server. -/
theorem empty_token_is_missing_witness :
    handle_rpc ⟨"2.0", .num 1, "tools/call", some [("name", Json.str "validate")]⟩
      (some "Bearer ") ⟨some "SECRET", some "+15555550123"⟩
      = .ok (ok (.num 1) missingTokenPayload)
    ∧ handle_rpc ⟨"2.0", .num 1, "tools/call",
        some [("name", Json.str "validate"),
              ("arguments", Json.obj [("token", Json.str "")])]⟩
      none ⟨some "SECRET", some "+15555550123"⟩
      = .ok (ok (.num 1) missingTokenPayload) :=
  ⟨empty_token_is_missing.1
      ⟨"2.0", .num 1, "tools/call", some [("name", Json.str "validate")]⟩
      ⟨some "SECRET", some "+15555550123"⟩ rfl rfl,
   empty_token_is_missing.2
      ⟨"2.0", .num 1, "tools/call",
        some [("name", Json.str "validate"),
              ("arguments", Json.obj [("token", Json.str "")])]⟩
      none ⟨some "SECRET", some "+15555550123"⟩ [("token", Json.str "")]
      rfl rfl (fun _ ha => Option.noConfusion ha) rfl rfl⟩

/-- Claim C10: the protocol tag is only required to be a string — shape
validation succeeds for any string tag exactly as for "2.0" (storing the
given tag), a non-string tag is rejected, the dispatcher behavior
never depends on the stored tag, and every normally returned response
carries the constant tag "2.0". -/
theorem jsonrpc_tag_ignored :
    (∀ (kvs : List (String × Json)) (s : String),
      parseRequest (("jsonrpc", Json.str s) :: kvs)
        = (parseRequest (("jsonrpc", Json.str "2.0") :: kvs)).map
            (fun r => withTag r s))
    ∧ (∀ (kvs : List (String × Json)) (j : Json),
      (∀ s, j ≠ .str s) → parseRequest (("jsonrpc", j) :: kvs) = none)
    ∧ (∀ (rpc : JsonRpcRequest) (s : String) (auth : Option String)
        (cfg : Config),
      handle_rpc (withTag rpc s) auth cfg = handle_rpc rpc auth cfg)
    ∧ (∀ (rpc : JsonRpcRequest) (auth : Option String) (cfg : Config)
        (r : Json),
      handle_rpc rpc auth cfg = .ok r → tagOf r = some (.str "2.0")) := by
  refine ⟨?_, ?_, ?_, ?_⟩
  · intro kvs s
    have e1 : ∀ (t : String) (key : String), key ≠ "jsonrpc" →
        lookup (("jsonrpc", Json.str t) :: kvs) key = lookup kvs key := by
      intro t key hk
      simp [lookup, Ne.symm hk]
    have f1 : lookup (("jsonrpc", Json.str s) :: kvs) "jsonrpc"
        = some (Json.str s) := by simp [lookup]
    have f2 : lookup (("jsonrpc", Json.str "2.0") :: kvs) "jsonrpc"
        = some (Json.str "2.0") := by simp [lookup]
    simp only [parseRequest, f1, f2, e1 s "method" (by decide),
      e1 s "id" (by decide), e1 s "params" (by decide),
      e1 "2.0" "method" (by decide), e1 "2.0" "id" (by decide),
      e1 "2.0" "params" (by decide)]
    cases hm : lookup kvs "method" with
    | none => simp
    | some jm =>
      cases jm <;> simp
      cases hi : parseId (lookup kvs "id") <;>
        cases hp : parseParams (lookup kvs "params") <;> simp [withTag]
  · intro kvs j hj
    cases j with
    | str s => exact absurd rfl (hj s)
    | null => simp [parseRequest, lookup]
    | bool b => simp [parseRequest, lookup]
    | num n => simp [parseRequest, lookup]
    | arr xs => simp [parseRequest, lookup]
    | obj o => simp [parseRequest, lookup]
  · intro rpc s auth cfg
    obtain ⟨v, i, m0, p⟩ := rpc
    rfl
  · intro rpc auth cfg r h
    exact (handle_rpc_ok_shape rpc auth cfg r h).2.2

/-- Claim C10 (witness): tag "1.0" validates exactly as "2.0" on a
concrete bare-ping object, and a concrete dispatched response carries
the constant tag. -/
theorem jsonrpc_tag_ignored_witness :
    parseRequest (("jsonrpc", Json.str "1.0") :: [("method", Json.str "ping")])
      = (parseRequest (("jsonrpc", Json.str "2.0") :: [("method", Json.str "ping")])).map
          (fun r => withTag r "1.0")
    ∧ tagOf (ok (.num 1) (.obj [("pong", .bool true)])) = some (.str "2.0") :=
  ⟨jsonrpc_tag_ignored.1 [("method", Json.str "ping")] "1.0",
   jsonrpc_tag_ignored.2.2.2 ⟨"1.0", .num 1, "ping", none⟩ none ⟨none, none⟩
      (ok (.num 1) (.obj [("pong", .bool true)])) rfl⟩

end McpJdKit
